import Mathlib

/-!
Shallow embedding of the moonfire-playground FFmpeg wrapper shim
(nvr-motion/ffmpeg/wrapper.c).

Modelling conventions:
  - C machine integers (int, int64_t, enums) are modelled as Int; the shim
    only copies them verbatim, so no overflow arithmetic arises except where
    noted.
  - C pointers are modelled as Nat addresses, with 0 playing the role of NULL.
  - size_t is modelled as Nat; the implicit C conversion from int to size_t
    is conversion modulo 2 ^ 64 (LP64 platform).
  - Calls into FFmpeg or libc (malloc, the pthread mutex calls,
    av_image_alloc, avio_open) are code outside this repository; each is
    modelled as an explicit function or result parameter, and the pthread
    calls additionally as an emitted action trace so that which mutex call
    was made on which pointer is part of the observable behaviour.
  - Functions that read fields of an FFmpeg-owned structure are given in
    state-passing form, returning the (value, structure) pair, so that the
    absence of mutation is an explicit part of each definition.
-/

/-- AVRational: numerator and denominator, both C ints. -/
structure AVRational where
  num : Int
  den : Int
deriving DecidableEq

/-- AV_PKT_FLAG_KEY from libavcodec (0x0001). -/
def AV_PKT_FLAG_KEY : Int := 1

/-- AVIO_FLAG_WRITE from libavformat (2). -/
def AVIO_FLAG_WRITE : Int := 2

/-- AV_LOCK_CREATE, first value of enum AVLockOp. -/
def AV_LOCK_CREATE : Int := 0

/-- AV_LOCK_OBTAIN, second value of enum AVLockOp. -/
def AV_LOCK_OBTAIN : Int := 1

/-- AV_LOCK_RELEASE, third value of enum AVLockOp. -/
def AV_LOCK_RELEASE : Int := 2

/-- AV_LOCK_DESTROY, fourth value of enum AVLockOp. -/
def AV_LOCK_DESTROY : Int := 3

/-- Conversion of a C int value to size_t: reduction modulo 2 ^ 64
    (LP64), then read as a natural number. -/
def c_size_t_of_int (x : Int) : Nat := (x % (2 : Int) ^ 64).toNat

/-- AVPacket fields the wrapper touches: pts, dts (int64_t), duration,
    stream_index, flags, size (int) and the payload pointer. -/
structure AVPacket where
  pts : Int
  dts : Int
  duration : Int
  stream_index : Int
  flags : Int
  data : Nat
  size : Int
deriving DecidableEq

/-- AVStream fields the wrapper touches. -/
structure AVStream where
  codecpar : Nat
  duration : Int
  time_base : AVRational
deriving DecidableEq

/-- AVFormatContext fields the wrapper touches. -/
structure AVFormatContext where
  streams : Nat
  nb_streams : Nat
  pb : Nat
deriving DecidableEq

/-- AVCodecContext fields the wrapper touches. -/
structure AVCodecContext where
  codec_id : Int
  codec_type : Int
  width : Int
  height : Int
  sample_aspect_ratio : AVRational
  pix_fmt : Int
  time_base : AVRational
  extradata : Nat
  extradata_size : Int
deriving DecidableEq

/-- AVCodecParameters fields the wrapper touches. -/
structure AVCodecParameters where
  codec_id : Int
  codec_type : Int
  width : Int
  height : Int
  format : Int
  extradata : Nat
  extradata_size : Int
deriving DecidableEq

/-- AVFrame fields the wrapper touches: plane pointer array, line sizes,
    dimensions, pixel format and pts. -/
structure AVFrame where
  width : Int
  height : Int
  format : Int
  data : List Nat
  linesize : List Int
  pts : Int
deriving DecidableEq

/-- struct moonfire_ffmpeg_streams: AVStream** pointer plus size_t length. -/
structure moonfire_ffmpeg_streams where
  streams : Nat
  len : Nat
deriving DecidableEq

/-- struct moonfire_ffmpeg_data: uint8_t* pointer plus size_t length. -/
structure moonfire_ffmpeg_data where
  data : Nat
  len : Nat
deriving DecidableEq

/-- struct VideoParameters. -/
structure VideoParameters where
  width : Int
  height : Int
  sample_aspect_ratio : AVRational
  pix_fmt : Int
  time_base : AVRational
deriving DecidableEq

/-- struct moonfire_ffmpeg_image_dimensions. -/
structure moonfire_ffmpeg_image_dimensions where
  width : Int
  height : Int
  pix_fmt : Int
deriving DecidableEq

/-- struct moonfire_ffmpeg_frame_stuff (the C struct tag; the function of
    the same C name is modelled below). -/
structure moonfire_ffmpeg_frame_stuff_s where
  dims : moonfire_ffmpeg_image_dimensions
  data : List Nat
  linesizes : List Int
  pts : Int
deriving DecidableEq

/-- One observable call made by lock_callback into libc or pthreads. -/
inductive PthreadAction where
  | malloc_call : PthreadAction
  | mutex_init : Nat → PthreadAction
  | mutex_lock : Nat → PthreadAction
  | mutex_unlock : Nat → PthreadAction
  | mutex_destroy : Nat → PthreadAction
  | free_call : Nat → PthreadAction
deriving DecidableEq

/-- Results of the external libc and pthread calls that lock_callback can
    make: the pointer malloc returns (0 meaning NULL) and the int return
    codes of the four pthread mutex calls (0 meaning success). -/
structure PthreadEnv where
  malloc_ret : Nat
  mutex_init_ret : Int
  mutex_lock_ret : Int
  mutex_unlock_ret : Int
  mutex_destroy_ret : Int
deriving DecidableEq

/-- lock_callback from wrapper.c. The mutex slot (void **mutex) is the Nat
    argument (0 meaning NULL); the result is the int return value, the new
    slot contents and the trace of external calls made. -/
def lock_callback (env : PthreadEnv) (mutex : Nat) (op : Int) :
    Int × Nat × List PthreadAction :=
  if op = AV_LOCK_CREATE then
    let p := env.malloc_ret
    if p = 0 then (-1, p, [PthreadAction.malloc_call])
    else if env.mutex_init_ret ≠ 0 then
      (-1, p, [PthreadAction.malloc_call, PthreadAction.mutex_init p])
    else (0, p, [PthreadAction.malloc_call, PthreadAction.mutex_init p])
  else if op = AV_LOCK_DESTROY then
    if env.mutex_destroy_ret ≠ 0 then (-1, mutex, [PthreadAction.mutex_destroy mutex])
    else (0, 0, [PthreadAction.mutex_destroy mutex, PthreadAction.free_call mutex])
  else if op = AV_LOCK_OBTAIN then
    if env.mutex_lock_ret ≠ 0 then (-1, mutex, [PthreadAction.mutex_lock mutex])
    else (0, mutex, [PthreadAction.mutex_lock mutex])
  else if op = AV_LOCK_RELEASE then
    if env.mutex_unlock_ret ≠ 0 then (-1, mutex, [PthreadAction.mutex_unlock mutex])
    else (0, mutex, [PthreadAction.mutex_unlock mutex])
  else (-1, mutex, [])

/-- Observable outcome of moonfire_ffmpeg_init: nothing done (the
    FF_API_LOCKMGR variant), the lock callback registered, or the process
    aborted. -/
inductive InitOutcome where
  | noop : InitOutcome
  | registered : (PthreadEnv → Nat → Int → Int × Nat × List PthreadAction) → InitOutcome
  | aborted : InitOutcome

/-- moonfire_ffmpeg_init from wrapper.c, parameterised by whether the
    FF_API_LOCKMGR macro is defined at compile time and by the return value
    av_lockmgr_register would give. -/
def moonfire_ffmpeg_init (lockmgr_macro_defined : Bool)
    (av_lockmgr_register_ret : Int) : InitOutcome :=
  if lockmgr_macro_defined then InitOutcome.noop
  else if av_lockmgr_register_ret < 0 then InitOutcome.aborted
  else InitOutcome.registered lock_callback

/-- moonfire_ffmpeg_fctx_streams from wrapper.c. -/
def moonfire_ffmpeg_fctx_streams (ctx : AVFormatContext) :
    moonfire_ffmpeg_streams × AVFormatContext :=
  ({ streams := ctx.streams, len := ctx.nb_streams }, ctx)

/-- moonfire_ffmpeg_fctx_open_write from wrapper.c, parameterised by the
    external avio_open call, modelled as a function from the url and flags
    to the int return value and the AVIOContext pointer stored through the
    first argument. -/
def moonfire_ffmpeg_fctx_open_write (avio_open : String → Int → Int × Nat)
    (ctx : AVFormatContext) (url : String) : Int × AVFormatContext :=
  let r := avio_open url AVIO_FLAG_WRITE
  (r.1, { ctx with pb := r.2 })

/-- moonfire_ffmpeg_cctx_params from wrapper.c: fills a VideoParameters
    bundle from the codec context. -/
def moonfire_ffmpeg_cctx_params (ctx : AVCodecContext) :
    VideoParameters × AVCodecContext :=
  ({ width := ctx.width
     height := ctx.height
     sample_aspect_ratio := ctx.sample_aspect_ratio
     pix_fmt := ctx.pix_fmt
     time_base := ctx.time_base }, ctx)

/-- moonfire_ffmpeg_cctx_set_params from wrapper.c. -/
def moonfire_ffmpeg_cctx_set_params (ctx : AVCodecContext)
    (p : VideoParameters) : AVCodecContext :=
  { ctx with
    width := p.width
    height := p.height
    sample_aspect_ratio := p.sample_aspect_ratio
    pix_fmt := p.pix_fmt
    time_base := p.time_base }

/-- moonfire_ffmpeg_packet_alloc from wrapper.c: a bare malloc of
    sizeof(AVPacket), so the returned shell holds whatever the allocator
    memory held; that uninitialized content is the parameter. -/
def moonfire_ffmpeg_packet_alloc (malloc_contents : AVPacket) : AVPacket :=
  malloc_contents

/-- moonfire_ffmpeg_packet_is_key from wrapper.c. -/
def moonfire_ffmpeg_packet_is_key (pkt : AVPacket) : Bool × AVPacket :=
  (Int.land pkt.flags AV_PKT_FLAG_KEY ≠ 0, pkt)

/-- moonfire_ffmpeg_packet_pts from wrapper.c. -/
def moonfire_ffmpeg_packet_pts (pkt : AVPacket) : Int × AVPacket :=
  (pkt.pts, pkt)

/-- moonfire_ffmpeg_packet_set_dts from wrapper.c. -/
def moonfire_ffmpeg_packet_set_dts (pkt : AVPacket) (dts : Int) : AVPacket :=
  { pkt with dts := dts }

/-- moonfire_ffmpeg_packet_set_pts from wrapper.c. -/
def moonfire_ffmpeg_packet_set_pts (pkt : AVPacket) (pts : Int) : AVPacket :=
  { pkt with pts := pts }

/-- moonfire_ffmpeg_packet_set_duration from wrapper.c. -/
def moonfire_ffmpeg_packet_set_duration (pkt : AVPacket) (dur : Int) : AVPacket :=
  { pkt with duration := dur }

/-- moonfire_ffmpeg_packet_dts from wrapper.c. -/
def moonfire_ffmpeg_packet_dts (pkt : AVPacket) : Int × AVPacket :=
  (pkt.dts, pkt)

/-- moonfire_ffmpeg_packet_duration from wrapper.c. -/
def moonfire_ffmpeg_packet_duration (pkt : AVPacket) : Int × AVPacket :=
  (pkt.duration, pkt)

/-- moonfire_ffmpeg_packet_stream_index from wrapper.c. -/
def moonfire_ffmpeg_packet_stream_index (pkt : AVPacket) : Int × AVPacket :=
  (pkt.stream_index, pkt)

/-- moonfire_ffmpeg_packet_data from wrapper.c; the int size field is
    converted to the size_t len field. -/
def moonfire_ffmpeg_packet_data (pkt : AVPacket) :
    moonfire_ffmpeg_data × AVPacket :=
  ({ data := pkt.data, len := c_size_t_of_int pkt.size }, pkt)

/-- moonfire_ffmpeg_stream_codecpar from wrapper.c. -/
def moonfire_ffmpeg_stream_codecpar (stream : AVStream) : Nat × AVStream :=
  (stream.codecpar, stream)

/-- moonfire_ffmpeg_stream_duration from wrapper.c. -/
def moonfire_ffmpeg_stream_duration (stream : AVStream) : Int × AVStream :=
  (stream.duration, stream)

/-- moonfire_ffmpeg_stream_time_base from wrapper.c. -/
def moonfire_ffmpeg_stream_time_base (stream : AVStream) : AVRational × AVStream :=
  (stream.time_base, stream)

/-- moonfire_ffmpeg_cctx_codec_id from wrapper.c. -/
def moonfire_ffmpeg_cctx_codec_id (cctx : AVCodecContext) : Int × AVCodecContext :=
  (cctx.codec_id, cctx)

/-- moonfire_ffmpeg_cctx_codec_type from wrapper.c. -/
def moonfire_ffmpeg_cctx_codec_type (cctx : AVCodecContext) : Int × AVCodecContext :=
  (cctx.codec_type, cctx)

/-- moonfire_ffmpeg_cctx_extradata from wrapper.c; the int extradata_size
    is converted to the size_t len field. -/
def moonfire_ffmpeg_cctx_extradata (cctx : AVCodecContext) :
    moonfire_ffmpeg_data × AVCodecContext :=
  ({ data := cctx.extradata, len := c_size_t_of_int cctx.extradata_size }, cctx)

/-- moonfire_ffmpeg_cctx_height from wrapper.c. -/
def moonfire_ffmpeg_cctx_height (cctx : AVCodecContext) : Int × AVCodecContext :=
  (cctx.height, cctx)

/-- moonfire_ffmpeg_cctx_width from wrapper.c. -/
def moonfire_ffmpeg_cctx_width (cctx : AVCodecContext) : Int × AVCodecContext :=
  (cctx.width, cctx)

/-- moonfire_ffmpeg_cctx_pix_fmt from wrapper.c. -/
def moonfire_ffmpeg_cctx_pix_fmt (cctx : AVCodecContext) : Int × AVCodecContext :=
  (cctx.pix_fmt, cctx)

/-- Result of the external av_image_alloc call: its int return value and
    the plane pointers and line sizes it stores through its first two
    arguments. -/
structure av_image_alloc_result where
  ret : Int
  data : List Nat
  linesize : List Int
deriving DecidableEq

/-- moonfire_ffmpeg_frame_image_alloc from wrapper.c, parameterised by the
    external av_image_alloc call (arguments: width, height, pix_fmt,
    align). The call itself stores into frame data and linesize; the
    wrapper then writes width, height and format only when the return
    value is not negative. -/
def moonfire_ffmpeg_frame_image_alloc
    (av_image_alloc : Int → Int → Int → Int → av_image_alloc_result)
    (frame : AVFrame) (dims : moonfire_ffmpeg_image_dimensions) :
    Int × AVFrame :=
  let res := av_image_alloc dims.width dims.height dims.pix_fmt 32
  let frame1 := { frame with data := res.data, linesize := res.linesize }
  if res.ret < 0 then (res.ret, frame1)
  else (res.ret,
        { frame1 with width := dims.width, height := dims.height, format := dims.pix_fmt })

/-- moonfire_ffmpeg_frame_stuff from wrapper.c: fills the snapshot struct
    from the frame. -/
def moonfire_ffmpeg_frame_stuff (frame : AVFrame) :
    moonfire_ffmpeg_frame_stuff_s × AVFrame :=
  ({ dims := { width := frame.width, height := frame.height, pix_fmt := frame.format }
     data := frame.data
     linesizes := frame.linesize
     pts := frame.pts }, frame)

/-- moonfire_ffmpeg_codecpar_codec_id from wrapper.c. -/
def moonfire_ffmpeg_codecpar_codec_id (codecpar : AVCodecParameters) :
    Int × AVCodecParameters :=
  (codecpar.codec_id, codecpar)

/-- moonfire_ffmpeg_codecpar_codec_type from wrapper.c. -/
def moonfire_ffmpeg_codecpar_codec_type (codecpar : AVCodecParameters) :
    Int × AVCodecParameters :=
  (codecpar.codec_type, codecpar)

/-- moonfire_ffmpeg_codecpar_dims from wrapper.c. -/
def moonfire_ffmpeg_codecpar_dims (codecpar : AVCodecParameters) :
    moonfire_ffmpeg_image_dimensions × AVCodecParameters :=
  ({ width := codecpar.width, height := codecpar.height, pix_fmt := codecpar.format }, codecpar)

/-- moonfire_ffmpeg_codecpar_extradata from wrapper.c; the int
    extradata_size is converted to the size_t len field. -/
def moonfire_ffmpeg_codecpar_extradata (codecpar : AVCodecParameters) :
    moonfire_ffmpeg_data × AVCodecParameters :=
  ({ data := codecpar.extradata, len := c_size_t_of_int codecpar.extradata_size }, codecpar)

/-- Concrete sample states used by witnesses. -/
def sample_packet : AVPacket :=
  { pts := 1000, dts := 900, duration := 33, stream_index := 2, flags := 1,
    data := 4096, size := 10 }

/-- Concrete sample codec context used by witnesses. -/
def sample_cctx : AVCodecContext :=
  { codec_id := 27, codec_type := 0, width := 1920, height := 1080,
    sample_aspect_ratio := { num := 1, den := 1 }, pix_fmt := 0,
    time_base := { num := 1, den := 90000 }, extradata := 8192, extradata_size := 40 }

/-- Concrete sample codec parameters used by witnesses. -/
def sample_codecpar : AVCodecParameters :=
  { codec_id := 27, codec_type := 0, width := 1280, height := 720,
    format := 0, extradata := 12288, extradata_size := 25 }

/-- C1: writing a video-parameter bundle with moonfire_ffmpeg_cctx_set_params
    and reading it back with moonfire_ffmpeg_cctx_params yields a bundle equal
    to the written one field-wise: width, height, sample aspect ratio
    numerator and denominator, pixel format, and time base numerator and
    denominator. -/
theorem cctx_params_round_trip (C : AVCodecContext) (P : VideoParameters) :
    (moonfire_ffmpeg_cctx_params (moonfire_ffmpeg_cctx_set_params C P)).1.width = P.width
  ∧ (moonfire_ffmpeg_cctx_params (moonfire_ffmpeg_cctx_set_params C P)).1.height = P.height
  ∧ (moonfire_ffmpeg_cctx_params (moonfire_ffmpeg_cctx_set_params C P)).1.sample_aspect_ratio.num
      = P.sample_aspect_ratio.num
  ∧ (moonfire_ffmpeg_cctx_params (moonfire_ffmpeg_cctx_set_params C P)).1.sample_aspect_ratio.den
      = P.sample_aspect_ratio.den
  ∧ (moonfire_ffmpeg_cctx_params (moonfire_ffmpeg_cctx_set_params C P)).1.pix_fmt = P.pix_fmt
  ∧ (moonfire_ffmpeg_cctx_params (moonfire_ffmpeg_cctx_set_params C P)).1.time_base.num
      = P.time_base.num
  ∧ (moonfire_ffmpeg_cctx_params (moonfire_ffmpeg_cctx_set_params C P)).1.time_base.den
      = P.time_base.den :=
  ⟨rfl, rfl, rfl, rfl, rfl, rfl, rfl⟩

/-- C5: writing pts, dts or duration on a packet shell and reading the same
    field back returns the written value, and moonfire_ffmpeg_packet_is_key
    is true exactly when the AV_PKT_FLAG_KEY bit of the flags field is set. -/
theorem packet_field_round_trip (pkt : AVPacket) (v : Int) :
    (moonfire_ffmpeg_packet_pts (moonfire_ffmpeg_packet_set_pts pkt v)).1 = v
  ∧ (moonfire_ffmpeg_packet_dts (moonfire_ffmpeg_packet_set_dts pkt v)).1 = v
  ∧ (moonfire_ffmpeg_packet_duration (moonfire_ffmpeg_packet_set_duration pkt v)).1 = v
  ∧ ((moonfire_ffmpeg_packet_is_key pkt).1 = true ↔ Int.land pkt.flags AV_PKT_FLAG_KEY ≠ 0) := by
  refine ⟨rfl, rfl, rfl, ?_⟩
  simp [moonfire_ffmpeg_packet_is_key]

/-- C6 counterexample: the claim fails on a packet whose int size field is
    negative. With size = -1 the size_t len field of the returned span is
    2 ^ 64 - 1, not -1, so the span does not equal (data, size). -/
theorem packet_data_negative_size_counterexample :
    ((moonfire_ffmpeg_packet_data
        { pts := 0, dts := 0, duration := 0, stream_index := 0, flags := 0,
          data := 4096, size := -1 }).1.len : Int)
      ≠ (-1 : Int)
  ∧ (moonfire_ffmpeg_packet_data
        { pts := 0, dts := 0, duration := 0, stream_index := 0, flags := 0,
          data := 4096, size := -1 }).1.len = 18446744073709551615 := by
  constructor
  · decide
  · decide

/-- Helper: converting a nonnegative int value to size_t is the identity. -/
theorem c_size_t_of_int_eq_self (x : Int) (h0 : 0 ≤ x) (h1 : x < 2 ^ 31) :
    (c_size_t_of_int x : Int) = x := by
  unfold c_size_t_of_int
  rw [Int.emod_eq_of_lt h0 (lt_trans h1 (by norm_num))]
  exact Int.toNat_of_nonneg h0

/-- C6 amended: for a packet whose size field holds a nonnegative int value,
    moonfire_ffmpeg_packet_data returns the span (data, size) unchanged, and
    likewise moonfire_ffmpeg_cctx_extradata and
    moonfire_ffmpeg_codecpar_extradata return (extradata, extradata_size)
    unchanged when extradata_size holds a nonnegative int value; a negative
    size converts to size_t modulo 2 ^ 64 and is not preserved. -/
theorem byte_span_fidelity (pkt : AVPacket) (cctx : AVCodecContext)
    (cp : AVCodecParameters)
    (hp0 : 0 ≤ pkt.size) (hp1 : pkt.size < 2 ^ 31)
    (hc0 : 0 ≤ cctx.extradata_size) (hc1 : cctx.extradata_size < 2 ^ 31)
    (hq0 : 0 ≤ cp.extradata_size) (hq1 : cp.extradata_size < 2 ^ 31) :
    (moonfire_ffmpeg_packet_data pkt).1.data = pkt.data
  ∧ ((moonfire_ffmpeg_packet_data pkt).1.len : Int) = pkt.size
  ∧ (moonfire_ffmpeg_cctx_extradata cctx).1.data = cctx.extradata
  ∧ ((moonfire_ffmpeg_cctx_extradata cctx).1.len : Int) = cctx.extradata_size
  ∧ (moonfire_ffmpeg_codecpar_extradata cp).1.data = cp.extradata
  ∧ ((moonfire_ffmpeg_codecpar_extradata cp).1.len : Int) = cp.extradata_size :=
  ⟨rfl, c_size_t_of_int_eq_self pkt.size hp0 hp1, rfl,
   c_size_t_of_int_eq_self cctx.extradata_size hc0 hc1, rfl,
   c_size_t_of_int_eq_self cp.extradata_size hq0 hq1⟩

/-- C6 witness: the amended span fidelity evaluated on concrete states with
    nonnegative sizes. -/
theorem byte_span_fidelity_witness :
    (moonfire_ffmpeg_packet_data sample_packet).1.data = sample_packet.data
  ∧ ((moonfire_ffmpeg_packet_data sample_packet).1.len : Int) = sample_packet.size
  ∧ ((moonfire_ffmpeg_cctx_extradata sample_cctx).1.len : Int) = sample_cctx.extradata_size
  ∧ ((moonfire_ffmpeg_codecpar_extradata sample_codecpar).1.len : Int)
      = sample_codecpar.extradata_size := by
  have h := byte_span_fidelity sample_packet sample_cctx sample_codecpar
    (by decide) (by decide) (by decide) (by decide) (by decide) (by decide)
  exact ⟨h.1, h.2.1, h.2.2.2.1, h.2.2.2.2.2⟩

/-- C7 counterexample: moonfire_ffmpeg_packet_alloc is a bare malloc, so the
    returned shell is not zero-initialized; when the allocator memory holds
    pts 7 the returned shell has pts 7, not 0. -/
theorem packet_alloc_not_zeroed_counterexample :
    (moonfire_ffmpeg_packet_alloc
        { pts := 7, dts := 0, duration := 0, stream_index := 0, flags := 0,
          data := 0, size := 0 }).pts ≠ 0 := by
  decide

/-- C7 amended: moonfire_ffmpeg_packet_alloc returns the raw allocator
    memory verbatim; the shell is uninitialized, each field holding whatever
    value that memory held, with no zero-initialization. -/
theorem packet_alloc_returns_malloc_memory (m : AVPacket) :
    moonfire_ffmpeg_packet_alloc m = m :=
  rfl

/-- Concrete failing allocator used by the C2 witness: av_image_alloc
    returning -12 (out of memory) and storing nothing useful. -/
def sample_alloc_fail : Int → Int → Int → Int → av_image_alloc_result :=
  fun _ _ _ _ => { ret := -12, data := [], linesize := [] }

/-- Concrete succeeding allocator used by the C2 witness. -/
def sample_alloc_ok : Int → Int → Int → Int → av_image_alloc_result :=
  fun w h _ _ => { ret := w * h * 3, data := [4096], linesize := [w * 3] }

/-- Concrete frame used by witnesses. -/
def sample_frame : AVFrame :=
  { width := 0, height := 0, format := -1, data := [], linesize := [], pts := 5 }

/-- Concrete image dimensions used by witnesses. -/
def sample_dims : moonfire_ffmpeg_image_dimensions :=
  { width := 64, height := 64, pix_fmt := 2 }

/-- C2: when the underlying av_image_alloc call fails (negative return),
    moonfire_ffmpeg_frame_image_alloc returns that negative value and leaves
    the frame width, height and format unchanged; when it succeeds, the
    wrapper returns the nonnegative byte count and sets width, height and
    format to the requested dimensions and pixel format. -/
theorem frame_image_alloc_contract
    (av_image_alloc : Int → Int → Int → Int → av_image_alloc_result)
    (frame : AVFrame) (dims : moonfire_ffmpeg_image_dimensions) :
    ((av_image_alloc dims.width dims.height dims.pix_fmt 32).ret < 0 →
       (moonfire_ffmpeg_frame_image_alloc av_image_alloc frame dims).1
           = (av_image_alloc dims.width dims.height dims.pix_fmt 32).ret
     ∧ (moonfire_ffmpeg_frame_image_alloc av_image_alloc frame dims).1 < 0
     ∧ (moonfire_ffmpeg_frame_image_alloc av_image_alloc frame dims).2.width = frame.width
     ∧ (moonfire_ffmpeg_frame_image_alloc av_image_alloc frame dims).2.height = frame.height
     ∧ (moonfire_ffmpeg_frame_image_alloc av_image_alloc frame dims).2.format = frame.format)
  ∧ (0 ≤ (av_image_alloc dims.width dims.height dims.pix_fmt 32).ret →
       (moonfire_ffmpeg_frame_image_alloc av_image_alloc frame dims).1
           = (av_image_alloc dims.width dims.height dims.pix_fmt 32).ret
     ∧ 0 ≤ (moonfire_ffmpeg_frame_image_alloc av_image_alloc frame dims).1
     ∧ (moonfire_ffmpeg_frame_image_alloc av_image_alloc frame dims).2.width = dims.width
     ∧ (moonfire_ffmpeg_frame_image_alloc av_image_alloc frame dims).2.height = dims.height
     ∧ (moonfire_ffmpeg_frame_image_alloc av_image_alloc frame dims).2.format = dims.pix_fmt) := by
  constructor
  · intro h
    simp [moonfire_ffmpeg_frame_image_alloc, h]
  · intro h
    simp [moonfire_ffmpeg_frame_image_alloc, not_lt.mpr h, h]

/-- C2 witness: the image-alloc contract evaluated with a concrete failing
    allocator and a concrete succeeding allocator on a 64 x 64 request. -/
theorem frame_image_alloc_contract_witness :
    ((moonfire_ffmpeg_frame_image_alloc sample_alloc_fail sample_frame sample_dims).1 < 0
     ∧ (moonfire_ffmpeg_frame_image_alloc sample_alloc_fail sample_frame sample_dims).2.width
         = sample_frame.width)
  ∧ ((moonfire_ffmpeg_frame_image_alloc sample_alloc_ok sample_frame sample_dims).2.width
         = sample_dims.width
     ∧ 0 ≤ (moonfire_ffmpeg_frame_image_alloc sample_alloc_ok sample_frame sample_dims).1) := by
  have hf := (frame_image_alloc_contract sample_alloc_fail sample_frame sample_dims).1
    (by decide)
  have ho := (frame_image_alloc_contract sample_alloc_ok sample_frame sample_dims).2
    (by decide)
  exact ⟨⟨hf.2.1, hf.2.2.1⟩, ho.2.2.1, ho.2.1⟩

/-- C3: for every pthread environment and mutex slot, lock_callback maps
    AV_LOCK_CREATE to allocate-and-initialize into the slot, AV_LOCK_DESTROY
    to destroy-and-free (clearing the slot), AV_LOCK_OBTAIN to lock and
    AV_LOCK_RELEASE to unlock; it returns 0 on success, and every failure
    path (malloc returning NULL, any failing pthread call, or an operation
    value outside the four defined ones) returns -1. -/
theorem lock_callback_spec (env : PthreadEnv) (mutex : Nat) :
    (env.malloc_ret = 0 →
       lock_callback env mutex AV_LOCK_CREATE = (-1, 0, [PthreadAction.malloc_call]))
  ∧ (env.malloc_ret ≠ 0 → env.mutex_init_ret ≠ 0 →
       lock_callback env mutex AV_LOCK_CREATE
         = (-1, env.malloc_ret,
            [PthreadAction.malloc_call, PthreadAction.mutex_init env.malloc_ret]))
  ∧ (env.malloc_ret ≠ 0 → env.mutex_init_ret = 0 →
       lock_callback env mutex AV_LOCK_CREATE
         = (0, env.malloc_ret,
            [PthreadAction.malloc_call, PthreadAction.mutex_init env.malloc_ret]))
  ∧ (env.mutex_destroy_ret ≠ 0 →
       lock_callback env mutex AV_LOCK_DESTROY
         = (-1, mutex, [PthreadAction.mutex_destroy mutex]))
  ∧ (env.mutex_destroy_ret = 0 →
       lock_callback env mutex AV_LOCK_DESTROY
         = (0, 0, [PthreadAction.mutex_destroy mutex, PthreadAction.free_call mutex]))
  ∧ (env.mutex_lock_ret ≠ 0 →
       lock_callback env mutex AV_LOCK_OBTAIN
         = (-1, mutex, [PthreadAction.mutex_lock mutex]))
  ∧ (env.mutex_lock_ret = 0 →
       lock_callback env mutex AV_LOCK_OBTAIN
         = (0, mutex, [PthreadAction.mutex_lock mutex]))
  ∧ (env.mutex_unlock_ret ≠ 0 →
       lock_callback env mutex AV_LOCK_RELEASE
         = (-1, mutex, [PthreadAction.mutex_unlock mutex]))
  ∧ (env.mutex_unlock_ret = 0 →
       lock_callback env mutex AV_LOCK_RELEASE
         = (0, mutex, [PthreadAction.mutex_unlock mutex]))
  ∧ (∀ op : Int, op ≠ AV_LOCK_CREATE → op ≠ AV_LOCK_OBTAIN → op ≠ AV_LOCK_RELEASE →
       op ≠ AV_LOCK_DESTROY → lock_callback env mutex op = (-1, mutex, [])) := by
  refine ⟨?_, ?_, ?_, ?_, ?_, ?_, ?_, ?_, ?_, ?_⟩
  · intro h
    simp [lock_callback, AV_LOCK_CREATE, h]
  · intro h1 h2
    simp [lock_callback, AV_LOCK_CREATE, h1, h2]
  · intro h1 h2
    simp [lock_callback, AV_LOCK_CREATE, h1, h2]
  · intro h
    simp [lock_callback, AV_LOCK_CREATE, AV_LOCK_DESTROY, h]
  · intro h
    simp [lock_callback, AV_LOCK_CREATE, AV_LOCK_DESTROY, h]
  · intro h
    simp [lock_callback, AV_LOCK_CREATE, AV_LOCK_DESTROY, AV_LOCK_OBTAIN, h]
  · intro h
    simp [lock_callback, AV_LOCK_CREATE, AV_LOCK_DESTROY, AV_LOCK_OBTAIN, h]
  · intro h
    simp [lock_callback, AV_LOCK_CREATE, AV_LOCK_DESTROY, AV_LOCK_OBTAIN, AV_LOCK_RELEASE, h]
  · intro h
    simp [lock_callback, AV_LOCK_CREATE, AV_LOCK_DESTROY, AV_LOCK_OBTAIN, AV_LOCK_RELEASE, h]
  · intro op h1 h2 h3 h4
    simp [lock_callback, h1, h2, h3, h4]

/-- C3 witness: lock_callback evaluated on concrete environments covering a
    successful create, a failed create, obtain, release, destroy, and an
    undefined operation value. -/
theorem lock_callback_spec_witness :
    lock_callback ⟨5, 0, 0, 0, 0⟩ 0 AV_LOCK_CREATE
        = (0, 5, [PthreadAction.malloc_call, PthreadAction.mutex_init 5])
  ∧ lock_callback ⟨0, 0, 0, 0, 0⟩ 0 AV_LOCK_CREATE = (-1, 0, [PthreadAction.malloc_call])
  ∧ lock_callback ⟨5, 0, 0, 0, 0⟩ 7 AV_LOCK_OBTAIN = (0, 7, [PthreadAction.mutex_lock 7])
  ∧ lock_callback ⟨5, 0, 0, 0, 0⟩ 7 AV_LOCK_RELEASE = (0, 7, [PthreadAction.mutex_unlock 7])
  ∧ lock_callback ⟨5, 0, 0, 0, 0⟩ 7 AV_LOCK_DESTROY
        = (0, 0, [PthreadAction.mutex_destroy 7, PthreadAction.free_call 7])
  ∧ lock_callback ⟨5, 0, 0, 0, 0⟩ 7 99 = (-1, 7, []) := by
  have ha := lock_callback_spec ⟨5, 0, 0, 0, 0⟩ 0
  have hb := lock_callback_spec ⟨0, 0, 0, 0, 0⟩ 0
  have hc := lock_callback_spec ⟨5, 0, 0, 0, 0⟩ 7
  refine ⟨ha.2.2.1 (by decide) (by decide), hb.1 (by decide), ?_, ?_, ?_, ?_⟩
  · exact hc.2.2.2.2.2.2.1 (by decide)
  · exact hc.2.2.2.2.2.2.2.2.1 (by decide)
  · exact hc.2.2.2.2.1 (by decide)
  · exact hc.2.2.2.2.2.2.2.2.2 99 (by decide) (by decide) (by decide) (by decide)

/-- C4: moonfire_ffmpeg_init registers the lock callback exactly when the
    FF_API_LOCKMGR macro is undefined; in that variant it aborts when the
    registration call returns a negative value and otherwise registers
    lock_callback, and in the variant where the macro is defined it performs
    no action at all. -/
theorem moonfire_ffmpeg_init_spec (r : Int) :
    moonfire_ffmpeg_init true r = InitOutcome.noop
  ∧ (r < 0 → moonfire_ffmpeg_init false r = InitOutcome.aborted)
  ∧ (0 ≤ r → moonfire_ffmpeg_init false r = InitOutcome.registered lock_callback)
  ∧ moonfire_ffmpeg_init false r ≠ InitOutcome.noop := by
  refine ⟨rfl, ?_, ?_, ?_⟩
  · intro h
    simp [moonfire_ffmpeg_init, h]
  · intro h
    simp [moonfire_ffmpeg_init, not_lt.mpr h]
  · by_cases h : r < 0
    · simp [moonfire_ffmpeg_init, h]
    · simp [moonfire_ffmpeg_init, h]

/-- C4 witness: the initializer evaluated at a failing and a succeeding
    registration return value in the variant without FF_API_LOCKMGR. -/
theorem moonfire_ffmpeg_init_spec_witness :
    moonfire_ffmpeg_init false (-3) = InitOutcome.aborted
  ∧ moonfire_ffmpeg_init false 0 = InitOutcome.registered lock_callback :=
  ⟨(moonfire_ffmpeg_init_spec (-3)).2.1 (by decide),
   (moonfire_ffmpeg_init_spec 0).2.2.1 (by decide)⟩

/-- C8: moonfire_ffmpeg_fctx_open_write calls avio_open on the url with
    AVIO_FLAG_WRITE, stores the resulting I/O context into the pb field of
    the format context, returns the avio_open return value unchanged, and
    leaves the other format context fields unchanged. -/
theorem fctx_open_write_contract (avio : String → Int → Int × Nat)
    (ctx : AVFormatContext) (url : String) :
    (moonfire_ffmpeg_fctx_open_write avio ctx url).1 = (avio url AVIO_FLAG_WRITE).1
  ∧ (moonfire_ffmpeg_fctx_open_write avio ctx url).2.pb = (avio url AVIO_FLAG_WRITE).2
  ∧ (moonfire_ffmpeg_fctx_open_write avio ctx url).2.streams = ctx.streams
  ∧ (moonfire_ffmpeg_fctx_open_write avio ctx url).2.nb_streams = ctx.nb_streams :=
  ⟨rfl, rfl, rfl, rfl⟩

/-- C9: moonfire_ffmpeg_frame_stuff fills the snapshot with exactly the
    frame width, height and format as the dimensions bundle, its data plane
    pointer array, its line size array and its presentation timestamp, each
    copied verbatim from the frame. -/
theorem frame_stuff_snapshot (frame : AVFrame) :
    (moonfire_ffmpeg_frame_stuff frame).1.dims.width = frame.width
  ∧ (moonfire_ffmpeg_frame_stuff frame).1.dims.height = frame.height
  ∧ (moonfire_ffmpeg_frame_stuff frame).1.dims.pix_fmt = frame.format
  ∧ (moonfire_ffmpeg_frame_stuff frame).1.data = frame.data
  ∧ (moonfire_ffmpeg_frame_stuff frame).1.linesizes = frame.linesize
  ∧ (moonfire_ffmpeg_frame_stuff frame).1.pts = frame.pts :=
  ⟨rfl, rfl, rfl, rfl, rfl, rfl⟩

/-- C10: every read accessor of the wrapper — the packet getters, the stream
    getters, the codec context getters, the codec parameters getters,
    moonfire_ffmpeg_fctx_streams and moonfire_ffmpeg_frame_stuff — returns
    the backing structure completely unchanged. -/
theorem read_accessors_pure (pkt : AVPacket) (stream : AVStream)
    (cctx : AVCodecContext) (cp : AVCodecParameters)
    (fctx : AVFormatContext) (frame : AVFrame) :
    (moonfire_ffmpeg_packet_is_key pkt).2 = pkt
  ∧ (moonfire_ffmpeg_packet_pts pkt).2 = pkt
  ∧ (moonfire_ffmpeg_packet_dts pkt).2 = pkt
  ∧ (moonfire_ffmpeg_packet_duration pkt).2 = pkt
  ∧ (moonfire_ffmpeg_packet_stream_index pkt).2 = pkt
  ∧ (moonfire_ffmpeg_packet_data pkt).2 = pkt
  ∧ (moonfire_ffmpeg_stream_codecpar stream).2 = stream
  ∧ (moonfire_ffmpeg_stream_duration stream).2 = stream
  ∧ (moonfire_ffmpeg_stream_time_base stream).2 = stream
  ∧ (moonfire_ffmpeg_cctx_codec_id cctx).2 = cctx
  ∧ (moonfire_ffmpeg_cctx_codec_type cctx).2 = cctx
  ∧ (moonfire_ffmpeg_cctx_extradata cctx).2 = cctx
  ∧ (moonfire_ffmpeg_cctx_height cctx).2 = cctx
  ∧ (moonfire_ffmpeg_cctx_width cctx).2 = cctx
  ∧ (moonfire_ffmpeg_cctx_pix_fmt cctx).2 = cctx
  ∧ (moonfire_ffmpeg_cctx_params cctx).2 = cctx
  ∧ (moonfire_ffmpeg_codecpar_codec_id cp).2 = cp
  ∧ (moonfire_ffmpeg_codecpar_codec_type cp).2 = cp
  ∧ (moonfire_ffmpeg_codecpar_dims cp).2 = cp
  ∧ (moonfire_ffmpeg_codecpar_extradata cp).2 = cp
  ∧ (moonfire_ffmpeg_fctx_streams fctx).2 = fctx
  ∧ (moonfire_ffmpeg_frame_stuff frame).2 = frame :=
  ⟨rfl, rfl, rfl, rfl, rfl, rfl, rfl, rfl, rfl, rfl, rfl, rfl, rfl, rfl, rfl,
   rfl, rfl, rfl, rfl, rfl, rfl, rfl⟩
